import Mathlib

/-!
Shallow embedding of the live-event-validation service (Python/Flask) for
formal verification of its specification claims.

Embedded components, translated from the repository sources:
* `app/validators/event_validator.py` — the `EventValidator` class
  (type checks, required/conditional/extra/array passes, fallback validator);
* `app/repositories/log_repository.py` — content hashing, stats aggregation
  and duplicate pruning;
* `app/services/log_service.py` — `process_log` ingestion;
* `app/validators/csv_parser.py` and `app/services/validation_service.py` —
  rule parsing and rule upload.

Modelling conventions:
* JSON values are a tagged union `Json`; Python `dict`s are insertion-ordered
  association lists (as CPython dicts are), floats are carried as their repr
  strings (no claim computes with float values).
* Python `None` returned from `dict.get` is indistinguishable from a stored
  `None` value, so `py_get` collapses a missing key to `Json.null`, exactly as
  the source code experiences it.
* `\d` in the source regexes is modelled as an ASCII digit; Python string
  `strip`/`lower`/`split` are modelled by kernel-computable character-list
  functions (`py_strip`, `py_lower`, `split_on`, ...).
* Exceptions that `validate_event` can raise (from `validate_conditional_fields`
  on malformed condition values) are modelled with `Except`.
-/

/-- Tagged union of JSON-ish Python runtime values. Python `bool` is a
subclass of `int`; the explicit `isinstance(value, bool)` guards in the source
correspond to the separate `bool` constructor here. Floats are carried as
their repr string, since no validated claim computes with float values. -/
inductive Json where
  | null
  | bool (b : Bool)
  | int (n : Int)
  | float (r : String)
  | str (s : String)
  | arr (xs : List Json)
  | obj (kvs : List (String × Json))
deriving Repr

mutual

/-- Structural equality of JSON values, modelling Python `==` on them.
Python additionally identifies numerically equal `int`/`float`/`bool` values
(`1 == 1.0 == True`); that corner is only reachable through the conditional
rule trigger comparison and no claim depends on it. -/
def jsonEqb : Json → Json → Bool
  | .null, .null => true
  | .bool a, .bool b => a == b
  | .int a, .int b => a == b
  | .float a, .float b => a == b
  | .str a, .str b => a == b
  | .arr a, .arr b => jsonEqbArr a b
  | .obj a, .obj b => jsonEqbObj a b
  | _, _ => false

/-- Elementwise `jsonEqb` on lists (Python `list.__eq__`). -/
def jsonEqbArr : List Json → List Json → Bool
  | [], [] => true
  | x :: xs, y :: ys => jsonEqb x y && jsonEqbArr xs ys
  | _, _ => false

/-- Pairwise `jsonEqb` on key-value lists (Python `dict.__eq__`, with dicts
modelled as insertion-ordered association lists). -/
def jsonEqbObj : List (String × Json) → List (String × Json) → Bool
  | [], [] => true
  | (k, v) :: xs, (k2, v2) :: ys => k == k2 && jsonEqb v v2 && jsonEqbObj xs ys
  | _, _ => false

end

/-- Python truthiness on JSON-ish values (`bool(x)`). A float is falsy
exactly when it is zero; with floats carried as reprs this is the repr of a
zero float. -/
def truthy : Json → Bool
  | .null => false
  | .bool b => b
  | .int n => n != 0
  | .float r => !(r == "0.0" || r == "-0.0")
  | .str s => s != ""
  | .arr xs => !xs.isEmpty
  | .obj kvs => !kvs.isEmpty

/-- First binding for key `k` in an association-list dict, if any. -/
def dict_find (m : List (String × Json)) (k : String) : Option Json :=
  (m.find? (fun kv => kv.1 == k)).map (·.2)

/-- Python `d.get(k, default)`. -/
def py_get_default (m : List (String × Json)) (k : String) (d : Json) : Json :=
  (dict_find m k).getD d

/-- Python `d.get(k)`: a missing key yields `None`, which the source code
cannot distinguish from a stored `None` value. -/
def py_get (m : List (String × Json)) (k : String) : Json :=
  py_get_default m k Json.null

/-- Python dict construction with repeated insertion (`{f(k): g(v) for ...}`):
a repeated key updates the value in place, keeping the first-insertion
position, exactly like CPython dicts. -/
def dict_upsert {α : Type} [DecidableEq α] (m : List (α × Json)) (k : α) (v : Json) :
    List (α × Json) :=
  if m.any (fun kv => kv.1 = k) then
    m.map (fun kv => if kv.1 = k then (k, v) else kv)
  else
    m ++ [(k, v)]

/-- Builds a Python dict from a list of key/value pairs by repeated insertion. -/
def dict_comp {α : Type} [DecidableEq α] (l : List (α × Json)) : List (α × Json) :=
  l.foldl (fun m kv => dict_upsert m kv.1 kv.2) []

/-- Lookup in a dict with keys of any type (used for the normalized-payload
dict whose keys are `Option String` because `normalize_key` can return
Python `None`). Missing keys collapse to `Json.null` like `py_get`. -/
def py_get_opt {α : Type} [DecidableEq α] (m : List (α × Json)) (k : α) : Json :=
  ((m.find? (fun kv => kv.1 = k)).map (·.2)).getD Json.null

/-- Checks that a character list starts with the given pattern. -/
def starts_chars : List Char → List Char → Bool
  | _, [] => true
  | [], _ :: _ => false
  | c :: cs, n :: ns => c == n && starts_chars cs ns

/-- ASCII lower-casing of one character. Python `str.lower()` is
Unicode-aware; the event and field identifiers this system lower-cases are
ASCII. (The core `String.toLower` is avoided throughout because its
`Substring`-based implementation does not reduce in the kernel.) -/
def ch_lower (c : Char) : Char :=
  if 65 ≤ c.toNat && c.toNat ≤ 90 then Char.ofNat (c.toNat + 32) else c

/-- Python `s.lower()`. -/
def py_lower (s : String) : String :=
  String.mk (s.data.map ch_lower)

/-- Python `s.strip()`: drops leading and trailing whitespace. -/
def py_strip (s : String) : String :=
  String.mk (((s.data.dropWhile Char.isWhitespace).reverse.dropWhile
    Char.isWhitespace).reverse)

/-- Python `s.replace(" ", "_")` (the only replacement the source performs). -/
def py_replace_space (s : String) : String :=
  String.mk (s.data.map (fun c => if c == ' ' then '_' else c))

/-- Python `s.startswith(pre)`. -/
def py_startswith (s pre : String) : Bool :=
  starts_chars s.data pre.data

/-- Python `s.endswith(suf)`. -/
def py_endswith (s suf : String) : Bool :=
  starts_chars s.data.reverse suf.data.reverse

/-- Python `s[n:]` in characters. -/
def py_drop (s : String) (n : Nat) : String :=
  String.mk (s.data.drop n)

/-- Python `s[:-n]` in characters. -/
def py_dropright (s : String) (n : Nat) : String :=
  String.mk (s.data.take (s.data.length - n))

/-- Python `c in s` for a single character. -/
def str_contains_c (s : String) (c : Char) : Bool :=
  s.data.any (· == c)

/-- Python `s.split(sep)` for a non-empty separator, scanning left to right.
The fuel argument (initialized to the input length, which one character of
progress per step can never exhaust) keeps the recursion structural so that
the definition evaluates inside the kernel. -/
def split_go (sep : List Char) : Nat → List Char → List Char → List (List Char)
  | _, [], cur => [cur.reverse]
  | 0, l, cur => [cur.reverse ++ l]
  | fuel + 1, c :: rest, cur =>
    if starts_chars (c :: rest) sep && !sep.isEmpty then
      cur.reverse :: split_go sep fuel ((c :: rest).drop sep.length) []
    else
      split_go sep fuel rest (c :: cur)

/-- Python `s.split(sep)` on strings. -/
def split_on (s sep : String) : List String :=
  (split_go sep.data s.data.length s.data []).map String.mk

/-- Substring test on character lists (Python `needle in hay`). -/
def chars_contain : List Char → List Char → Bool
  | [], needle => needle.isEmpty
  | c :: t, needle => starts_chars (c :: t) needle || chars_contain t needle

/-- Python `needle in hay` on strings. -/
def str_contains_sub (hay needle : String) : Bool :=
  chars_contain hay.data needle.data

/-- EventValidator.normalize_key (event_validator.py:128-130):
`key.replace(" ", "_").lower() if key else None`. An empty (falsy) key maps
to Python `None`, modelled as `none`. -/
def normalize_key (key : String) : Option String :=
  if key = "" then none else some (py_lower (py_replace_space key))

/-- Exact shape `YYYY-MM-DD` with ASCII digits (the source regex
`\d{4}-\d{2}-\d{2}` under `re.fullmatch`). -/
def matches_date_only (s : String) : Bool :=
  match s.toList with
  | [y1, y2, y3, y4, '-', m1, m2, '-', d1, d2] =>
      [y1, y2, y3, y4, m1, m2, d1, d2].all Char.isDigit
  | _ => false

/-- Exact shape `YYYY-MM-DD HH:MM:SS` (the source regex
`\d{4}-\d{2}-\d{2} \d{2}:\d{2}:\d{2}` under `re.fullmatch`). -/
def matches_timestamp (s : String) : Bool :=
  match s.toList with
  | [y1, y2, y3, y4, '-', o1, o2, '-', d1, d2, ' ', h1, h2, ':', i1, i2, ':', s1, s2] =>
      [y1, y2, y3, y4, o1, o2, d1, d2, h1, h2, i1, i2, s1, s2].all Char.isDigit
  | _ => false

/-- EventValidator.get_value_type (event_validator.py:25-48). The date test
uses `re.match(r"\d{4}-\d{2}-\d{2}( \d{2}:\d{2}:\d{2})?$", value)`; `$` also
matches just before one trailing newline, which is reproduced here. -/
def get_value_type (value : Json) : String :=
  match value with
  | .null => "null"
  | .bool _ => "boolean"
  | .int _ => "integer"
  | .float _ => "float"
  | .str s =>
      let core := fun (t : String) => matches_date_only t || matches_timestamp t
      if core s || (py_endswith s "\n" && core (py_dropright s 1)) then "date" else "text"
  | .arr _ => "array"
  | .obj _ => "object"

/-- EventValidator.validate_text (event_validator.py:50-53):
a string that is non-empty after stripping. -/
def validate_text (value : Json) : Bool :=
  match value with
  | .str s => py_strip s != ""
  | _ => false

/-- EventValidator.validate_date (event_validator.py:55-62): `re.fullmatch`
of the date-only pattern when `event_name == "user_profile_push"`, and of the
timestamp pattern otherwise. `event_name` defaults to Python `None`. -/
def validate_date (value : Json) (event_name : Option String) : Bool :=
  match value with
  | .str s =>
      if event_name = some "user_profile_push" then matches_date_only s
      else matches_timestamp s
  | _ => false

/-- EventValidator.validate_integer (event_validator.py:64-67):
`isinstance(value, int) and not isinstance(value, bool)`. -/
def validate_integer (value : Json) : Bool :=
  match value with
  | .int _ => true
  | _ => false

/-- Configuration flag for float validation (event_validator.py:9). -/
def ACCEPT_INT_AS_FLOAT : Bool := false

/-- EventValidator.validate_float (event_validator.py:69-75). -/
def validate_float (value : Json) : Bool :=
  if ACCEPT_INT_AS_FLOAT then
    match value with
    | .int _ => true
    | .float _ => true
    | _ => false
  else
    match value with
    | .float _ => true
    | _ => false

/-- EventValidator.validate_boolean (event_validator.py:77-80). -/
def validate_boolean (value : Json) : Bool :=
  match value with
  | .bool _ => true
  | _ => false

/-- Result of EventValidator.validate_value: Python returns `True`, `False`,
or one of the strings `"Null value"` / `"Valid (JSON serialization converted
float to integer)"`. -/
inductive VRes where
  | bool (b : Bool)
  | msg (s : String)
deriving DecidableEq, Repr

/-- Python truthiness of a validate_value result (a non-empty string is
truthy, so `"Null value"` counts as a pass in the conditional check). -/
def vres_truthy : VRes → Bool
  | .bool b => b
  | .msg s => s != ""

/-- The check `value is None or value == ""` opening validate_value
(event_validator.py:92; the source repeats `value == ""` twice). -/
def is_none_or_empty_str : Json → Bool
  | .null => true
  | .str s => s == ""
  | _ => false

/-- EventValidator.validate_value (event_validator.py:82-112). -/
def validate_value (value : Json) (expected_type : String) (event_name : Option String) : VRes :=
  if is_none_or_empty_str value then .msg "Null value"
  else if expected_type = "text" then .bool (validate_text value)
  else if expected_type = "date" then .bool (validate_date value event_name)
  else if expected_type = "integer" then .bool (validate_integer value)
  else if expected_type = "float" then
    let result := validate_float value
    if result && validate_integer value && ACCEPT_INT_AS_FLOAT then
      .msg "Valid (JSON serialization converted float to integer)"
    else .bool result
  else if expected_type = "boolean" then .bool (validate_boolean value)
  else .bool false

/-- validate_value as called from the conditional pass, where the expected
type comes from a JSON condition object and may be any value: Python compares
it against the type-name strings, so a non-string expected type falls through
every branch to `return False` — but only after the null check. -/
def validate_value_j (value : Json) (expected_type : Json) (event_name : Option String) : VRes :=
  match expected_type with
  | .str s => validate_value value s event_name
  | _ => if is_none_or_empty_str value then .msg "Null value" else .bool false

/-- Float repr formatting inside EventValidator.get_formatted_value
(event_validator.py:117-124). -/
def format_float_repr (r : String) : String :=
  if !(str_contains_c r '.') then r ++ ".00"
  else if ((split_on r ".").getD 1 "").data.length = 1 then r ++ "0"
  else r

/-- EventValidator.get_formatted_value (event_validator.py:114-125):
only a float value under a float rule is reformatted (to a string). -/
def get_formatted_value (value : Json) (expected_type : String) : Json :=
  if expected_type = "float" then
    match value with
    | .float r => Json.str (format_float_repr r)
    | _ => value
  else value

/-- EventValidator.get_array_field_name (event_validator.py:132-138):
`re.match(r"(.+)\[\]\.(.+)", key)` with greedy groups, i.e. the split at the
rightmost occurrence of `"[]."` leaving both sides non-empty. (`.` does not
cross newlines in the source regex; field paths with newlines do not occur.) -/
def get_array_field_name (key : String) : Option String × Option String :=
  let ps := split_on key "[]."
  match ((List.range ps.length).reverse.filter (fun i => i ≠ 0)).find?
      (fun i => !("[].".intercalate (ps.take i)).isEmpty
             && !("[].".intercalate (ps.drop i)).isEmpty) with
  | some i => (some ("[].".intercalate (ps.take i)), some ("[].".intercalate (ps.drop i)))
  | none => (none, none)

/-- EventValidator._find_key_case_insensitive (event_validator.py:140-152):
the first dict key whose normalization equals the target's. -/
def find_key_case_insensitive (m : List (String × Json)) (target : String) : Option String :=
  (m.find? (fun kv => normalize_key kv.1 == normalize_key target)).map (·.1)

/-- The same lookup applied to an arbitrary value: a non-dict yields `None`
(the `if not isinstance(d, dict)` guard). -/
def find_key_ci_json (j : Json) (target : String) : Option String :=
  match j with
  | .obj m => find_key_case_insensitive m target
  | _ => none

/-- Indexing `current[real_key]` after a successful case-insensitive search. -/
def py_get_json (j : Json) (k : String) : Json :=
  match j with
  | .obj m => py_get m k
  | _ => Json.null

/-- Loop body of EventValidator.get_value_by_path (event_validator.py:154-189).
The `part.endswith('[]')` branch returns the array immediately, discarding any
remaining parts, exactly as the source `return arr` does. A `None` result and
a `None` value are indistinguishable to the caller and both map to `null`. -/
def path_walk : List String → Json → Json
  | [], current => current
  | part :: rest, current =>
    match current with
    | .null => Json.null
    | _ =>
      if py_endswith part "[]" then
        let arr_key := py_dropright part 2
        match find_key_ci_json current arr_key with
        | none => Json.null
        | some real_key =>
          match py_get_json current real_key with
          | .arr xs => .arr xs
          | _ => Json.null
      else
        match find_key_ci_json current part with
        | none => Json.null
        | some real_key => path_walk rest (py_get_json current real_key)

/-- EventValidator.get_value_by_path (event_validator.py:154-189), entered
with the inner payload dict. -/
def get_value_by_path (payload : List (String × Json)) (field_name : String) : Json :=
  if field_name = "" then Json.null
  else path_walk (split_on field_name ".") (Json.obj payload)

/-- Test for Python `None` (`value is None`; with `dict.get` collapsed,
a missing key also reads as `None`). -/
def is_null : Json → Bool
  | .null => true
  | _ => false

/-- Python `str(value)` for the f-string interpolations in conditional error
messages. Container reprs are abbreviated; no claim inspects these strings. -/
def py_str : Json → String
  | .null => "None"
  | .bool true => "True"
  | .bool false => "False"
  | .int n => toString n
  | .float r => r
  | .str s => s
  | .arr _ => "[...]"
  | .obj _ => "\x7b...\x7d"

/-- One validation rule as the dict handed to the validator by
LogService.process_log (log_service.py:80-88): keys `field_name`,
`data_type`, `is_required`, `condition`. The DB columns make the first two
strings and `is_required` a boolean; `condition` is an arbitrary decoded JSON
value (the CSV importer stores whatever `json.loads` produced). -/
structure Rule where
  field_name : String
  data_type : String
  is_required : Bool
  condition : Json
deriving Repr

/-- One per-field validation verdict, as the result dicts built throughout
EventValidator (keys `eventName, key, value, expectedType, receivedType,
validationStatus, comment`). -/
structure Verdict where
  eventName : String
  key : String
  value : Json
  expectedType : String
  receivedType : String
  validationStatus : String
  comment : String
deriving Repr

/-- EventValidator.validate_required_fields (event_validator.py:211-238):
for every rule marked required whose normalized field name is not among the
normalized payload keys, emit a "Payload not present in the log" verdict.
(The `required_fields` list computed at lines 215-216 of the source is dead
code and is not modelled.) -/
def validate_required_fields (payload : List (String × Json)) (validations : List Rule)
    (event_name : String) : List Verdict :=
  validations.filterMap (fun v =>
    if v.is_required && !(payload.any (fun kv => normalize_key kv.1 == normalize_key v.field_name)) then
      some { eventName := event_name, key := v.field_name, value := Json.null,
             expectedType := v.data_type, receivedType := "not present",
             validationStatus := "Payload not present in the log",
             comment := "Required field is missing in the payload" }
    else none)

/-- Python keys are unhashable exactly when they are containers; `k in d`
hashes `k` and raises `TypeError` on a list or dict key even for an empty
dict. -/
def unhashable : Json → Bool
  | .arr _ => true
  | .obj _ => true
  | _ => false

/-- Membership `k in payload` for a hashable candidate key: dict keys are
strings, and Python equality between a string key and a non-string hashable
value is always false. -/
def str_key_mem (m : List (String × Json)) (k : Json) : Bool :=
  match k with
  | .str s => m.any (fun kv => kv.1 == s)
  | _ => false

/-- Indexing `payload[k]` after a successful membership test. -/
def str_key_index (m : List (String × Json)) (k : Json) : Json :=
  match k with
  | .str s => py_get m s
  | _ => Json.null

/-- EventValidator.validate_conditional_fields (event_validator.py:191-209).
The rule dicts built by log_service always carry a `condition` key, so the
`'condition' not in validation` half of the guard never fires; a falsy
condition (None, `\x7b\x7d`, 0, "") skips the check. A truthy non-dict
condition raises `AttributeError` at `condition.get`, and an unhashable
(list/dict) trigger or dependent field name raises `TypeError` at the `in`
membership test; both are modelled as `Except.error`. -/
def validate_conditional_fields (payload : List (String × Json)) (rule : Rule) :
    Except String (Bool × String) :=
  if !truthy rule.condition then .ok (true, "")
  else
    match rule.condition with
    | .obj ckvs =>
      let if_field := py_get ckvs "if_field"
      let if_value := py_get ckvs "if_value"
      let then_field := py_get ckvs "then_field"
      let then_type := py_get ckvs "then_type"
      if unhashable if_field then
        .error "TypeError: unhashable condition if_field"
      else if str_key_mem payload if_field && jsonEqb (str_key_index payload if_field) if_value then
        if unhashable then_field then
          .error "TypeError: unhashable condition then_field"
        else if !str_key_mem payload then_field then
          .ok (false, "Required field \x27" ++ py_str then_field ++ "\x27 is missing when \x27"
                ++ py_str if_field ++ "\x27 is \x27" ++ py_str if_value ++ "\x27")
        else if !vres_truthy (validate_value_j (str_key_index payload then_field) then_type none) then
          .ok (false, "Field \x27" ++ py_str then_field ++ "\x27 has invalid type when \x27"
                ++ py_str if_field ++ "\x27 is \x27" ++ py_str if_value ++ "\x27")
        else .ok (true, "")
      else .ok (true, "")
    | _ => .error "AttributeError: condition value has no attribute get"

/-- The conditional-validation loop of validate_event
(event_validator.py:287-299): one verdict per failing conditional rule,
with the error message as both status and comment. An exception raised by
any iteration aborts the whole validation. -/
def cond_pass (inner : List (String × Json)) (event_name : String) :
    List Rule → Except String (List Verdict)
  | [] => .ok []
  | r :: rest =>
    match validate_conditional_fields inner r with
    | .error e => .error e
    | .ok (true, _) => cond_pass inner event_name rest
    | .ok (false, msg) =>
      match cond_pass inner event_name rest with
      | .error e => .error e
      | .ok l =>
        .ok ({ eventName := event_name, key := r.field_name, value := Json.null,
               expectedType := r.data_type, receivedType := "invalid",
               validationStatus := msg, comment := msg } :: l)

/-- The extra-field pass of validate_event (event_validator.py:301-336):
inner-payload keys matched by no rule field and no array-rule root are
reported as "Extra key present in the log". Python iterates the
`extra_fields` set in unspecified hash order; the model uses first-seen
order, which no claim depends on. -/
def extra_verdicts (inner : List (String × Json))
    (normalized_payload : List (Option String × Json)) (processed : List Rule)
    (event_name : String) : List Verdict :=
  let expected_fields := processed.map (fun r => normalize_key r.field_name)
  let expected_array_roots := processed.filterMap (fun r =>
    match get_array_field_name r.field_name with
    | (some a, _) => some (normalize_key a)
    | _ => none)
  let extras := (normalized_payload.map (·.1)).filter (fun f =>
    !(expected_fields.contains f) && !(expected_array_roots.contains f))
  extras.filterMap (fun f =>
    match inner.find? (fun kv => normalize_key kv.1 == f) with
    | some kv =>
      some { eventName := event_name, key := kv.1, value := py_get inner kv.1,
             expectedType := "EXTRA", receivedType := get_value_type (py_get inner kv.1),
             validationStatus := "Extra key present in the log",
             comment := "This is an EXTRA payload or there is a spelling mistake with the required payload" }
    | none => none)

/-- Status/comment selection shared by the array-element and scalar branches
(event_validator.py:429-437 and 481-490). -/
def status_comment_of (vr : VRes) (expected_type : String) (val : Json) : String × String :=
  if vr = .msg "Null value" then
    ("Payload value is Empty", "Field value is empty or null")
  else if vr = .bool true
      || (match vr with | .msg s => str_contains_sub s "Valid" | _ => false) then
    ("Valid", "Field validation passed")
  else
    ("Invalid/Wrong datatype/value",
     "Expected type: " ++ expected_type ++ ", Received type: " ++ get_value_type val)

/-- Array-element validation (event_validator.py:400-448): one verdict per
element, keyed `root[index].subfield`. -/
def array_elem_verdicts (event_name real_arr_key sub_field expected_type : String) :
    Nat → List Json → List Verdict
  | _, [] => []
  | idx, elem :: rest =>
    (match elem with
     | .obj em =>
       (match find_key_case_insensitive em sub_field with
        | none =>
          { eventName := event_name,
            key := real_arr_key ++ "[" ++ toString idx ++ "]." ++ sub_field,
            value := Json.null, expectedType := expected_type,
            receivedType := "not present",
            validationStatus := "Payload not present in the log",
            comment := "Field \x27" ++ sub_field ++ "\x27 missing in array element "
              ++ toString idx }
        | some real_sub_key =>
          let val := py_get em real_sub_key
          let sc := status_comment_of (validate_value val expected_type (some event_name))
            expected_type val
          { eventName := event_name,
            key := real_arr_key ++ "[" ++ toString idx ++ "]." ++ real_sub_key,
            value := get_formatted_value val expected_type,
            expectedType := expected_type, receivedType := get_value_type val,
            validationStatus := sc.1, comment := sc.2 })
     | _ =>
       { eventName := event_name, key := real_arr_key ++ "[" ++ toString idx ++ "]",
         value := elem, expectedType := "object", receivedType := get_value_type elem,
         validationStatus := "Invalid/Wrong datatype/value",
         comment := "Array element is not an object" })
    :: array_elem_verdicts event_name real_arr_key sub_field expected_type (idx + 1) rest

/-- Verdicts produced by one iteration of the per-rule loop of validate_event
(event_validator.py:339-503), given the results accumulated so far (consulted
only by the `already_reported` duplicate-missing check at lines 461-465). -/
def rule_gen (inner : List (String × Json))
    (normalized_payload : List (Option String × Json)) (event_name : String)
    (acc : List Verdict) (v : Rule) : List Verdict :=
  if v.field_name = "" || v.data_type = "" then
    [{ eventName := event_name, key := v.field_name, value := Json.null,
       expectedType := v.data_type, receivedType := "unknown",
       validationStatus := "Invalid CSV row",
       comment := "Invalid validation rule configuration" }]
  else
    match get_array_field_name v.field_name with
    | (some arr_name, some sub_field) =>
      (match find_key_case_insensitive inner arr_name with
       | none =>
         [{ eventName := event_name, key := v.field_name, value := Json.null,
            expectedType := v.data_type, receivedType := "not present",
            validationStatus := "Payload not present in the log",
            comment := "Array \x27" ++ arr_name ++ "\x27 is missing in payload" }]
       | some real_arr_key =>
         let arr_val := py_get inner real_arr_key
         match arr_val with
         | .arr xs =>
           if xs.isEmpty then
             [{ eventName := event_name, key := real_arr_key, value := .arr xs,
                expectedType := "array", receivedType := "array",
                validationStatus := "Payload value is Empty", comment := "Array is empty" }]
           else
             array_elem_verdicts event_name real_arr_key sub_field v.data_type 0 xs
         | _ =>
           [{ eventName := event_name, key := real_arr_key, value := arr_val,
              expectedType := "array", receivedType := get_value_type arr_val,
              validationStatus := "Invalid/Wrong datatype/value",
              comment := "Expected array for \x27" ++ real_arr_key ++ "\x27" }])
    | _ =>
      let value0 := py_get_opt normalized_payload (normalize_key v.field_name)
      let value := if is_null value0 then get_value_by_path inner v.field_name else value0
      if is_null value then
        let already_reported := acc.any (fun r =>
          r.key == v.field_name && r.validationStatus == "Payload not present in the log")
        if !already_reported && !v.is_required then
          [{ eventName := event_name, key := v.field_name, value := Json.null,
             expectedType := v.data_type, receivedType := "not present",
             validationStatus := "Payload not present in the log",
             comment := "Field is missing in the payload" }]
        else []
      else
        let sc := status_comment_of (validate_value value v.data_type (some event_name))
          v.data_type value
        [{ eventName := event_name, key := v.field_name,
           value := get_formatted_value value v.data_type,
           expectedType := v.data_type, receivedType := get_value_type value,
           validationStatus := sc.1, comment := sc.2 }]

/-- Scope restriction of validate_event (event_validator.py:264-269): the
inner `payload` sub-object if the envelope is a dict with a dict-valued
`payload` key, otherwise an empty dict. -/
def inner_payload_of (payload : Json) : List (String × Json) :=
  match payload with
  | .obj m =>
    (match dict_find m "payload" with
     | some (Json.obj inner) => inner
     | _ => [])
  | _ => []

/-- Rule preprocessing of validate_event (event_validator.py:272-281):
a leading `payload.` on the field path is stripped. -/
def strip_payload_pfx (fn : String) : String :=
  if py_startswith fn "payload." then py_drop fn 8 else fn

/-- Applies `strip_payload_pfx` to every rule, leaving other keys unchanged. -/
def processed_rules (rules : List Rule) : List Rule :=
  rules.map (fun vr => { vr with field_name := strip_payload_pfx vr.field_name })

/-- Overall-status predicate of validate_event (event_validator.py:505-510):
any verdict whose status is neither "Valid" nor "Extra key present in the
log". -/
def results_any_bad (results : List Verdict) : Bool :=
  results.any (fun r =>
    r.validationStatus != "Valid" && r.validationStatus != "Extra key present in the log")

/-- EventValidator.validate_event (event_validator.py:240-512). The verdict
list is: required-pass results, then failed-conditional results, then
extra-field results, then the per-rule loop results in rule order. An
exception from the conditional pass propagates (modelled as `Except.error`);
every other part of the function is total. -/
def validate_event (event_name : String) (payload : Json) (validation_rules : List Rule) :
    Except String (String × List Verdict) :=
  let inner := inner_payload_of payload
  let processed := processed_rules validation_rules
  let required_results := validate_required_fields inner processed event_name
  match cond_pass inner event_name processed with
  | .error e => .error e
  | .ok cond_results =>
    let normalized_payload := dict_comp (inner.map (fun kv => (normalize_key kv.1, kv.2)))
    let base := required_results ++ cond_results
      ++ extra_verdicts inner normalized_payload processed event_name
    let results := processed.foldl
      (fun acc r => acc ++ rule_gen inner normalized_payload event_name acc r) base
    .ok ((if results_any_bad results then "invalid" else "valid"), results)

/-- The `v is None or (isinstance(v, str) and v.strip() == "")` emptiness test
of validate_unknown_event (event_validator.py:534). -/
def is_empty_val (v : Json) : Bool :=
  match v with
  | .null => true
  | .str s => py_strip s == ""
  | _ => false

/-- One verdict of the fallback validator (event_validator.py:532-554).
`first` is true only for the first inner-payload item, whether or not that
item is empty. -/
def unknown_event_verdict (event_name : String) (first : Bool) (k : String) (v : Json) :
    Verdict :=
  if is_empty_val v then
    { eventName := event_name, key := k, value := v, expectedType := "EXTRA",
      receivedType := get_value_type v, validationStatus := "Payload value is Empty",
      comment := "Field value is empty or null (extra event)" }
  else if first then
    { eventName := event_name, key := k, value := v, expectedType := "EXTRA",
      receivedType := get_value_type v, validationStatus := "Extra event (not in sheet)",
      comment := "Event not present in validation sheet; showing payload from extra event" }
  else
    { eventName := event_name, key := k, value := v, expectedType := "EXTRA",
      receivedType := get_value_type v, validationStatus := "Payload from extra event",
      comment := "Showing payload value from extra event" }

/-- The item loop of validate_unknown_event, carrying the `first` flag that
is cleared after every iteration. -/
def unknown_event_loop (event_name : String) : Bool → List (String × Json) → List Verdict
  | _, [] => []
  | first, (k, v) :: rest =>
    unknown_event_verdict event_name first k v :: unknown_event_loop event_name false rest

/-- EventValidator.validate_unknown_event (event_validator.py:514-559): the
permissive fallback for events with no rules. Overall status is "invalid"
exactly when some verdict is "Payload value is Empty". -/
def validate_unknown_event (event_name : String) (payload : Json) :
    String × List Verdict :=
  let results := unknown_event_loop event_name true (inner_payload_of payload)
  ((if results.any (fun r => r.validationStatus == "Payload value is Empty")
    then "invalid" else "valid"), results)

/-- Strict code-point order on character lists, for `sort_keys=True`. -/
def chars_lt : List Char → List Char → Bool
  | [], [] => false
  | [], _ :: _ => true
  | _ :: _, [] => false
  | a :: as, b :: bs => if a < b then true else if b < a then false else chars_lt as bs

/-- Stable insertion into a key-sorted list of serialized entries. -/
def sort_insert (kv : String × String) : List (String × String) → List (String × String)
  | [] => [kv]
  | h :: t => if chars_lt kv.1.data h.1.data then kv :: h :: t else h :: sort_insert kv t

/-- Stable sort by key (Python `sorted` on dict keys). -/
def sort_by_key (l : List (String × String)) : List (String × String) :=
  l.foldr sort_insert []

/-- JSON string escaping for `json.dumps`; quote and backslash are escaped.
Control-character and non-ASCII `\u` escapes are omitted — every claim uses
only equality of serializations, which this preserves. -/
def json_escape_char (c : Char) : String :=
  if c = '"' then "\\\"" else if c = '\\' then "\\\\" else String.singleton c

/-- Escapes a whole string. -/
def json_escape (s : String) : String :=
  String.join (s.data.map json_escape_char)

/-- A serialized JSON string literal. -/
def dump_str (s : String) : String :=
  "\"" ++ json_escape s ++ "\""

mutual

/-- Python `json.dumps(value, sort_keys=True, default=str)` with the default
separators `", "` and `": "` (log_repository.py:220). Dict keys are sorted by
code point; floats serialize as their repr. -/
def jsonDumps : Json → String
  | .null => "null"
  | .bool true => "true"
  | .bool false => "false"
  | .int n => toString n
  | .float r => r
  | .str s => dump_str s
  | .arr xs => "[" ++ String.intercalate ", " (dump_arr_items xs) ++ "]"
  | .obj kvs =>
      "\x7b" ++ String.intercalate ", "
        ((sort_by_key (dump_obj_items kvs)).map (fun kv => dump_str kv.1 ++ ": " ++ kv.2))
      ++ "\x7d"

/-- Serializes each array element. -/
def dump_arr_items : List Json → List String
  | [] => []
  | x :: xs => jsonDumps x :: dump_arr_items xs

/-- Serializes each dict value, keeping its key for sorting. -/
def dump_obj_items : List (String × Json) → List (String × String)
  | [] => []
  | (k, v) :: rest => (k, jsonDumps v) :: dump_obj_items rest

end

/-- The SHA-256 hex digest of log_repository.py:223, modelled as the
serialized input itself. Every claim about hashes concerns only their
equality, and `sha256` is a fixed function, so equal serializations give
equal digests; distinct serializations are assumed collision-free, as the
deduplication design itself does. The model keeps the sentinel property that
a real digest is never the empty string. -/
def sha256_hex (s : String) : String := s

/-- LogRepository._compute_payload_hash (log_repository.py:199-223): the hash
of `\x7b"eventName": payload.get("eventName", ""), "payload":
payload.get("payload", \x7b\x7d)\x7d`; a non-dict payload yields the empty
sentinel string. -/
def compute_payload_hash (payload : Json) : String :=
  match payload with
  | .obj m =>
    sha256_hex (jsonDumps (Json.obj
      [("eventName", py_get_default m "eventName" (Json.str "")),
       ("payload", py_get_default m "payload" (Json.obj []))]))
  | _ => ""

/-- One element of a stored `validation_results` JSON column: a verdict dict,
or the `\x7b'error': str(e)\x7d` dict stored by the exception branch of
process_log (log_service.py:102). `result.get('validationStatus')` yields
`None` on the latter. -/
inductive VEntry where
  | verdict (v : Verdict)
  | errorDict (msg : String)
deriving Repr

/-- Python `result.get('validationStatus')` on a stored results element. -/
def ventry_status : VEntry → Option String
  | .verdict v => some v.validationStatus
  | .errorDict _ => none

/-- A LogEntry row (app/models/log_entry.py): `created_at` is modelled as a
monotone counter, `id` as the autoincrement primary key. -/
structure LogEntry where
  id : Nat
  app_id : Nat
  event_name : String
  payload : Json
  validation_status : String
  validation_results : List VEntry
  payload_hash : String
  created_at : Nat
deriving Repr

/-- A ValidationRule row (app/models/validation_rule.py), as stored per app. -/
structure StoredRule where
  app_id : Nat
  event_name : String
  field_name : String
  data_type : String
  is_required : Bool
  condition : Json
deriving Repr

/-- AppRepository.get_by_app_id, modelled as association-list lookup from the
public app-id string to the primary key. -/
def find_app (apps : List (String × Nat)) (app_id : String) : Option Nat :=
  (apps.find? (fun kv => kv.1 == app_id)).map (·.2)

/-- The stats result dict of LogRepository.get_stats. -/
structure Stats where
  total : Nat
  valid : Nat
  invalid : Nat
  error : Nat
deriving Repr, DecidableEq

/-- The "are ALL fields valid" check of get_stats (log_repository.py:89-96):
a falsy (empty) results list counts as all-valid. -/
def all_fields_valid (log : LogEntry) : Bool :=
  if !log.validation_results.isEmpty then
    log.validation_results.all (fun r => ventry_status r == some "Valid")
  else true

/-- The per-record classification of get_stats (log_repository.py:80-103):
every record increments `total` and exactly one of the three buckets. -/
def stats_step (s : Stats) (log : LogEntry) : Stats :=
  let s := { s with total := s.total + 1 }
  if log.validation_status == "error" then { s with error := s.error + 1 }
  else if log.validation_status == "invalid" then { s with invalid := s.invalid + 1 }
  else if log.validation_status == "valid" then
    (if all_fields_valid log then { s with valid := s.valid + 1 }
     else { s with invalid := s.invalid + 1 })
  else { s with invalid := s.invalid + 1 }

/-- Maximum id of a list of log rows (`func.max(LogEntry.id)`). -/
def max_log_id : List LogEntry → Option Nat
  | [] => none
  | e :: rest =>
    match max_log_id rest with
    | none => some e.id
    | some m => some (max e.id m)

/-- The grouped subquery of get_stats (log_repository.py:60-65): per event
name occurring among the app's records in the window, the greatest id. -/
def latest_ids (logs : List LogEntry) (app_id : Nat) (since : Nat) : List Nat :=
  let filtered := logs.filter (fun e => e.app_id == app_id && decide (since ≤ e.created_at))
  ((filtered.map (·.event_name)).dedup).filterMap (fun n =>
    max_log_id (filtered.filter (fun e => e.event_name == n)))

/-- LogRepository.get_stats (log_repository.py:38-110): select the rows whose
id is in the latest-per-event-name subquery, then classify them. The time
window `utcnow() - timedelta(hours)` is modelled as the cutoff `since` on the
`created_at` counter. -/
def get_stats (logs : List LogEntry) (app_id : Nat) (since : Nat) : Stats :=
  let ids := latest_ids logs app_id since
  let latest_logs := logs.filter (fun e => ids.contains e.id)
  latest_logs.foldl stats_step ⟨0, 0, 0, 0⟩

/-- LogService.get_validation_stats (log_service.py:157-162): zeros when the
app is unknown, otherwise the repository stats. -/
def get_validation_stats (apps : List (String × Nat)) (logs : List LogEntry)
    (app_id : String) (since : Nat) : Stats :=
  match find_app apps app_id with
  | none => ⟨0, 0, 0, 0⟩
  | some a => get_stats logs a since

/-- One row as produced by `csv.DictReader` for the rule-definition upload:
missing columns read as `None`. The `condition` cell is modelled after
decoding: `json.loads` of a non-empty cell, with a decode error or an empty
cell giving `\x7b\x7d` (csv_parser.py:48-53); no claim depends on the
decoding itself. -/
structure CsvRow where
  eventName : Option String
  eventPayload : Option String
  dataType : Option String
  required : Option String
  condition : Json
deriving Repr

/-- One parsed validation rule (the dicts returned by
CSVParser.parse_csv_content). -/
structure ParsedRule where
  event_name : String
  field_name : String
  data_type : String
  is_required : Bool
  condition : Json
deriving Repr

/-- The row loop of CSVParser.parse_csv_content (csv_parser.py:26-70),
carrying the `last_event_raw` accumulator: a non-empty `eventName` cell
starts a new event context, rows before any context or with an empty field
path are skipped, the data type is lower-cased, and `required` means the
cell lower-cases to the literal `"true"`. -/
def parse_csv_rows (last : String) : List CsvRow → List ParsedRule
  | [] => []
  | row :: rest =>
    let raw_event := py_strip ((row.eventName).getD "")
    let last2 := if raw_event != "" then raw_event else last
    if last2 = "" then parse_csv_rows last2 rest
    else
      let field_name_raw := py_strip ((row.eventPayload).getD "")
      if field_name_raw = "" then parse_csv_rows last2 rest
      else
        { event_name := py_lower (py_strip last2), field_name := field_name_raw,
          data_type := py_lower (py_strip ((row.dataType).getD "")),
          is_required := py_lower ((row.required).getD "") == "true",
          condition := row.condition } :: parse_csv_rows last2 rest

/-- CSVParser.parse_csv_content over the reader's rows. -/
def parse_csv_content (rows : List CsvRow) : List ParsedRule :=
  parse_csv_rows "" rows

/-- Result of ValidationService.upload_validation_rules: the source's
`\x7b'success': False, 'error': ...\x7d` dicts and the success dict. -/
inductive UploadResult where
  | appNotFound
  | noValidRules
  | uploaded (rules_count : Nat) (deleted_count : Nat) (event_names : List String)
deriving Repr

/-- ValidationRuleRepository.delete_by_app (validation_rule_repository.py:25-29):
removes the app's rules and reports how many were removed. -/
def delete_by_app (rules : List StoredRule) (app_id : Nat) : List StoredRule × Nat :=
  (rules.filter (fun r => !(r.app_id == app_id)),
   (rules.filter (fun r => r.app_id == app_id)).length)

/-- ValidationService.upload_validation_rules (validation_service.py:22-71):
unknown app and empty parse results return errors before any store mutation;
otherwise the app's prior rules are deleted and the parsed set bulk-inserted.
The returned `event_names` set is modelled in first-seen order. -/
def upload_validation_rules (store : List StoredRule) (apps : List (String × Nat))
    (app_id : String) (rows : List CsvRow) : List StoredRule × UploadResult :=
  match find_app apps app_id with
  | none => (store, .appNotFound)
  | some a =>
    let rules := parse_csv_content rows
    if rules.isEmpty then (store, .noValidRules)
    else
      let del := delete_by_app store a
      let rule_data := rules.map (fun r =>
        StoredRule.mk a r.event_name r.field_name r.data_type r.is_required r.condition)
      (del.1 ++ rule_data, .uploaded rule_data.length del.2 ((rules.map (·.event_name)).dedup))

/-- Membership in an accumulating fold is preserved from the initial list. -/
theorem mem_foldl_append_init {α β : Type} (g : List α → β → List α) (v : α) :
    ∀ (l : List β) (base : List α), v ∈ base →
      v ∈ l.foldl (fun acc x => acc ++ g acc x) base := by
  intro l
  induction l with
  | nil => intro base hv; exact hv
  | cons r rest ih =>
    intro base hv
    exact ih _ (List.mem_append_left _ hv)

/-- An element generated for some list member, whatever the accumulator, ends
up in the accumulating fold. -/
theorem mem_foldl_append_gen {α β : Type} (g : List α → β → List α) (v : α) (x : β) :
    ∀ (l : List β) (base : List α), x ∈ l → (∀ acc, v ∈ g acc x) →
      v ∈ l.foldl (fun acc y => acc ++ g acc y) base := by
  intro l
  induction l with
  | nil => intro base hx _; cases hx
  | cons r rest ih =>
    intro base hx hv
    rcases List.mem_cons.mp hx with h | h
    · subst h
      exact mem_foldl_append_init g v rest _ (List.mem_append_right _ (hv base))
    · exact ih _ h hv

/-- Conversely, everything in an accumulating fold is from the initial list
or generated for some list member at some accumulator. -/
theorem mem_foldl_append_cases {α β : Type} (g : List α → β → List α) (v : α) :
    ∀ (l : List β) (base : List α), v ∈ l.foldl (fun acc x => acc ++ g acc x) base →
      v ∈ base ∨ ∃ acc x, x ∈ l ∧ v ∈ g acc x := by
  intro l
  induction l with
  | nil => intro base hv; exact Or.inl hv
  | cons r rest ih =>
    intro base hv
    rcases ih _ hv with h | ⟨acc, x, hx, hg⟩
    · rcases List.mem_append.mp h with h | h
      · exact Or.inl h
      · exact Or.inr ⟨base, r, List.mem_cons_self r rest, h⟩
    · exact Or.inr ⟨acc, x, List.mem_cons_of_mem r hx, hg⟩

/-- The overall-status predicate, spelled as a proposition. -/
theorem results_any_bad_iff (res : List Verdict) :
    results_any_bad res = true ↔
      ∃ r ∈ res, r.validationStatus ≠ "Valid" ∧
        r.validationStatus ≠ "Extra key present in the log" := by
  simp [results_any_bad, List.any_eq_true, Bool.and_eq_true, bne_iff_ne]

/-- Destructures a successful validate_event run into its conditional-pass
results, the verdict-list construction, and the overall-status formula. -/
theorem validate_event_ok_destruct (en : String) (p : Json) (rules : List Rule)
    (st : String) (res : List Verdict)
    (h : validate_event en p rules = .ok (st, res)) :
    ∃ cond_results,
      cond_pass (inner_payload_of p) en (processed_rules rules) = .ok cond_results ∧
      res = (processed_rules rules).foldl
        (fun acc r => acc ++ rule_gen (inner_payload_of p)
          (dict_comp ((inner_payload_of p).map (fun kv => (normalize_key kv.1, kv.2)))) en acc r)
        (validate_required_fields (inner_payload_of p) (processed_rules rules) en
          ++ cond_results
          ++ extra_verdicts (inner_payload_of p)
              (dict_comp ((inner_payload_of p).map (fun kv => (normalize_key kv.1, kv.2))))
              (processed_rules rules) en) ∧
      st = (if results_any_bad res then "invalid" else "valid") := by
  unfold validate_event at h
  dsimp only at h
  cases hc : cond_pass (inner_payload_of p) en (processed_rules rules) with
  | error e =>
    rw [hc] at h
    exact absurd h (by simp)
  | ok cr =>
    rw [hc] at h
    simp only [Except.ok.injEq, Prod.mk.injEq] at h
    exact ⟨cr, rfl, h.2.symm, by rw [← h.2, ← h.1]⟩

/-- C1: For every event name, payload, and rule list on which validate_event
returns, the overall status is "invalid" if and only if some produced
verdict's validationStatus is anything other than "Valid" or "Extra key
present in the log"; otherwise it is "valid" (event_validator.py:505-512). -/
theorem validate_event_invalid_iff_bad_verdict (en : String) (p : Json)
    (rules : List Rule) (st : String) (res : List Verdict)
    (h : validate_event en p rules = .ok (st, res)) :
    (st = "invalid" ↔
      ∃ r ∈ res, r.validationStatus ≠ "Valid" ∧
        r.validationStatus ≠ "Extra key present in the log") ∧
    (st = "invalid" ∨ st = "valid") := by
  obtain ⟨cr, _, _, hst⟩ := validate_event_ok_destruct en p rules st res h
  subst hst
  by_cases hb : results_any_bad res = true
  · rw [if_pos hb]
    exact ⟨⟨fun _ => (results_any_bad_iff res).mp hb, fun _ => rfl⟩, Or.inl rfl⟩
  · rw [if_neg hb]
    constructor
    · constructor
      · intro hv; exact absurd hv (by decide)
      · intro hex; exact absurd ((results_any_bad_iff res).mpr hex) hb
    · exact Or.inr rfl

/-- The verdict produced in the C1 witness run (Scenario B of the spec). -/
def c1w_verdict : Verdict :=
  Verdict.mk "login" "user_id" Json.null "integer" "not present"
    "Payload not present in the log" "Required field is missing in the payload"

/-- Witness for C1 at the spec's Scenario B: a required integer rule and an
empty inner payload. -/
theorem validate_event_invalid_iff_bad_verdict_witness :
    (("invalid" : String) = "invalid" ↔
      ∃ r ∈ [c1w_verdict],
        r.validationStatus ≠ "Valid" ∧
          r.validationStatus ≠ "Extra key present in the log") ∧
    (("invalid" : String) = "invalid" ∨ ("invalid" : String) = "valid") :=
  validate_event_invalid_iff_bad_verdict "login" (Json.obj [("payload", Json.obj [])])
    [Rule.mk "user_id" "integer" true Json.null] "invalid" [c1w_verdict] (by rfl)

/-- C4: the content hash reads only the `eventName` and `payload` entries of
the envelope (log_repository.py:213-217), so two envelopes agreeing on those
two lookups — whatever their identity/session/time metadata — hash equally. -/
theorem payload_hash_ignores_envelope_metadata (m1 m2 : List (String × Json))
    (hev : dict_find m1 "eventName" = dict_find m2 "eventName")
    (hpl : dict_find m1 "payload" = dict_find m2 "payload") :
    compute_payload_hash (Json.obj m1) = compute_payload_hash (Json.obj m2) := by
  simp only [compute_payload_hash, py_get_default]
  rw [hev, hpl]

/-- Witness for C4: identical event name and inner payload, different
`identity` and `sessionId` metadata. -/
theorem payload_hash_ignores_envelope_metadata_witness :
    compute_payload_hash (Json.obj [("eventName", Json.str "logout"),
      ("identity", Json.str "user-1"), ("sessionId", Json.int 11),
      ("payload", Json.obj [("a", Json.int 1)])]) =
    compute_payload_hash (Json.obj [("eventName", Json.str "logout"),
      ("identity", Json.str "user-2"), ("deviceTime", Json.str "2026-01-02 03:04:05"),
      ("payload", Json.obj [("a", Json.int 1)])]) :=
  payload_hash_ignores_envelope_metadata _ _ (by rfl) (by rfl)

/-- Counterexample to C6 as stated: the claim admits a value matching the
timestamp pattern for the profile event, but validate_date rejects a
timestamp when the event is `user_profile_push` (its `re.fullmatch` then uses
the date-only pattern, event_validator.py:58-62). -/
theorem validate_date_profile_timestamp_counterexample :
    ¬ (validate_date (Json.str "2026-01-02 03:04:05") (some "user_profile_push") = true ↔
       (matches_timestamp "2026-01-02 03:04:05" = true ∨
        (matches_date_only "2026-01-02 03:04:05" = true ∧
         (some "user_profile_push" : Option String) = some "user_profile_push"))) := by
  decide

/-- C6 (amended): a value passes date validation iff it is a string matching
the date-only pattern `YYYY-MM-DD` when the event name is `user_profile_push`,
and the timestamp pattern `YYYY-MM-DD HH:MM:SS` for every other event name. -/
theorem validate_date_pattern_by_event (value : Json) (event_name : Option String) :
    validate_date value event_name = true ↔
      ∃ s, value = Json.str s ∧
        (if event_name = some "user_profile_push" then matches_date_only s
         else matches_timestamp s) = true := by
  cases value <;> simp [validate_date]

/-- C7: the statistics query always satisfies
`total = valid + invalid + error`, because each latest-per-event-name record
increments `total` and exactly one outcome bucket (log_repository.py:80-103). -/
theorem stats_total_eq_valid_add_invalid_add_error (apps : List (String × Nat))
    (logs : List LogEntry) (app_id : String) (since : Nat) :
    (get_validation_stats apps logs app_id since).total =
      (get_validation_stats apps logs app_id since).valid
      + (get_validation_stats apps logs app_id since).invalid
      + (get_validation_stats apps logs app_id since).error := by
  have hstep : ∀ (l : List LogEntry) (s : Stats),
      s.total = s.valid + s.invalid + s.error →
      (l.foldl stats_step s).total =
        (l.foldl stats_step s).valid + (l.foldl stats_step s).invalid
        + (l.foldl stats_step s).error := by
    intro l
    induction l with
    | nil => intro s hs; exact hs
    | cons e rest ih =>
      intro s hs
      refine ih _ ?_
      unfold stats_step
      dsimp only
      by_cases h1 : (e.validation_status == "error") = true
      · rw [if_pos h1]; dsimp only; omega
      · rw [if_neg h1]
        by_cases h2 : (e.validation_status == "invalid") = true
        · rw [if_pos h2]; dsimp only; omega
        · rw [if_neg h2]
          by_cases h3 : (e.validation_status == "valid") = true
          · rw [if_pos h3]
            by_cases h4 : all_fields_valid e = true
            · rw [if_pos h4]; dsimp only; omega
            · rw [if_neg h4]; dsimp only; omega
          · rw [if_neg h3]; dsimp only; omega
  unfold get_validation_stats
  cases find_app apps app_id with
  | none => rfl
  | some a => exact hstep _ _ rfl

/-- C9: when a rule upload parses to zero valid rules, the service reports
the "No valid rules found in CSV" error before touching the store: nothing is
inserted and the app's existing rules are not deleted
(validation_service.py:41-45). -/
theorem upload_zero_rules_reports_error_and_keeps_rules (store : List StoredRule)
    (apps : List (String × Nat)) (app_id : String) (rows : List CsvRow) (a : Nat)
    (happ : find_app apps app_id = some a)
    (hparse : parse_csv_content rows = []) :
    upload_validation_rules store apps app_id rows = (store, .noValidRules) := by
  unfold upload_validation_rules
  rw [happ, hparse]
  rfl

/-- Witness for C9: a CSV whose only rows have an empty field path parse to
zero rules and leave the app's stored rule untouched. -/
theorem upload_zero_rules_reports_error_and_keeps_rules_witness :
    upload_validation_rules [StoredRule.mk 1 "e" "f" "text" true Json.null]
      [("app1", 1)] "app1"
      [CsvRow.mk (some "e") (some "") (some "text") none (Json.obj []),
       CsvRow.mk none (some "  ") none none (Json.obj [])] =
      ([StoredRule.mk 1 "e" "f" "text" true Json.null], .noValidRules) :=
  upload_zero_rules_reports_error_and_keeps_rules _ _ _ _ 1 (by rfl) (by rfl)

/-- C2: for every rule list containing a required FieldRule whose normalized
(prefix-stripped) field is absent from the inner payload, any completed
validate_event run contains a "Payload not present in the log" verdict for
that field and reports overall status "invalid"
(event_validator.py:211-238, 283-285, 505-510). -/
theorem required_missing_field_yields_verdict_and_invalid
    (en : String) (p : Json) (rules : List Rule) (rule : Rule)
    (st : String) (res : List Verdict)
    (hmem : rule ∈ rules) (hreq : rule.is_required = true)
    (habs : ∀ kv ∈ inner_payload_of p,
      normalize_key kv.1 ≠ normalize_key (strip_payload_pfx rule.field_name))
    (h : validate_event en p rules = .ok (st, res)) :
    (∃ r ∈ res, r.key = strip_payload_pfx rule.field_name ∧
      r.validationStatus = "Payload not present in the log") ∧ st = "invalid" := by
  obtain ⟨cr, hc, hres, hst⟩ := validate_event_ok_destruct en p rules st res h
  have hproc : ({ rule with field_name := strip_payload_pfx rule.field_name } : Rule)
      ∈ processed_rules rules :=
    List.mem_map.mpr ⟨rule, hmem, rfl⟩
  have hvr : (Verdict.mk en (strip_payload_pfx rule.field_name) Json.null rule.data_type
      "not present" "Payload not present in the log"
      "Required field is missing in the payload")
      ∈ validate_required_fields (inner_payload_of p) (processed_rules rules) en := by
    unfold validate_required_fields
    refine List.mem_filterMap.mpr
      ⟨{ rule with field_name := strip_payload_pfx rule.field_name }, hproc, ?_⟩
    have hany : (inner_payload_of p).any (fun kv =>
        normalize_key kv.1 == normalize_key (strip_payload_pfx rule.field_name)) = false := by
      rw [List.any_eq_false]
      intro kv hkv
      simp only [beq_iff_eq]
      exact habs kv hkv
    simp [hreq, hany, Verdict.mk.injEq]
  have hmemres : (Verdict.mk en (strip_payload_pfx rule.field_name) Json.null rule.data_type
      "not present" "Payload not present in the log"
      "Required field is missing in the payload") ∈ res := by
    rw [hres]
    exact mem_foldl_append_init _ _ _ _
      (List.mem_append_left _ (List.mem_append_left _ hvr))
  constructor
  · exact ⟨_, hmemres, rfl, rfl⟩
  · have hne1 : ("Payload not present in the log" : String) ≠ "Valid" := by decide
    have hne2 : ("Payload not present in the log" : String) ≠ "Extra key present in the log" := by
      decide
    rw [hst, if_pos ((results_any_bad_iff res).mpr ⟨_, hmemres, hne1, hne2⟩)]

/-- Witness for C2: a required rule `payload.User ID` (exercising prefix
stripping and space/case normalization) against an empty inner payload. -/
theorem required_missing_field_yields_verdict_and_invalid_witness :
    (∃ r ∈ [Verdict.mk "signup" "User ID" Json.null "text" "not present"
        "Payload not present in the log" "Required field is missing in the payload"],
      r.key = strip_payload_pfx "payload.User ID" ∧
        r.validationStatus = "Payload not present in the log") ∧
    ("invalid" : String) = "invalid" :=
  required_missing_field_yields_verdict_and_invalid "signup"
    (Json.obj [("payload", Json.obj [])])
    [Rule.mk "payload.User ID" "text" true Json.null]
    (Rule.mk "payload.User ID" "text" true Json.null) "invalid"
    [Verdict.mk "signup" "User ID" Json.null "text" "not present"
      "Payload not present in the log" "Required field is missing in the payload"]
    (List.mem_singleton.mpr rfl) rfl (by intro kv hkv; cases hkv) (by rfl)

/-- Counterexample to C5 as stated, in its three non-empty-string cases.
A whitespace-only string is not caught by the `value is None or value == ""`
check of validate_value (event_validator.py:92), falls through to the type
check, and is reported "Invalid/Wrong datatype/value". A null value is read
back as missing by `normalized_payload.get` (event_validator.py:453): under a
required rule the missing branch is suppressed by the `is_required` guard
(event_validator.py:466) — no verdict at all, and the event reports "valid"
(the required pass does not fire, the key being present) — while under a
non-required rule it is reported "Payload not present in the log". None of
the three yields "Payload value is Empty". -/
theorem whitespace_value_not_empty_verdict_counterexample :
    (validate_event "e" (Json.obj [("payload", Json.obj [("a", Json.str " ")])])
      [Rule.mk "a" "text" false Json.null] =
      .ok ("invalid", [Verdict.mk "e" "a" (Json.str " ") "text" "text"
        "Invalid/Wrong datatype/value" "Expected type: text, Received type: text"]) ∧
    ("Invalid/Wrong datatype/value" : String) ≠ "Payload value is Empty") ∧
    validate_event "e" (Json.obj [("payload", Json.obj [("a", Json.null)])])
      [Rule.mk "a" "text" true Json.null] = .ok ("valid", []) ∧
    validate_event "e" (Json.obj [("payload", Json.obj [("a", Json.null)])])
      [Rule.mk "a" "text" false Json.null] =
      .ok ("invalid", [Verdict.mk "e" "a" Json.null "text" "not present"
        "Payload not present in the log" "Field is missing in the payload"]) :=
  ⟨⟨by rfl, by decide⟩, by rfl, by rfl⟩

/-- The per-rule loop's verdict for a well-formed non-array rule whose field
resolves to the empty string: validate_value returns "Null value" and the
verdict status is "Payload value is Empty" (event_validator.py:452-503). -/
theorem rule_gen_empty_string (inner : List (String × Json))
    (norm : List (Option String × Json)) (en : String) (acc : List Verdict) (r : Rule)
    (hfn : r.field_name ≠ "") (hdt : r.data_type ≠ "")
    (harr : get_array_field_name r.field_name = (none, none))
    (hval : py_get_opt norm (normalize_key r.field_name) = Json.str "") :
    rule_gen inner norm en acc r =
      [Verdict.mk en r.field_name (get_formatted_value (Json.str "") r.data_type)
        r.data_type (get_value_type (Json.str ""))
        "Payload value is Empty" "Field value is empty or null"] := by
  unfold rule_gen
  rw [if_neg (by simp [hfn, hdt])]
  rw [harr]
  dsimp only
  rw [hval]
  rfl

/-- The per-rule loop on a well-formed non-array rule whose field reads back
null from both the normalized lookup and the dotted-path fallback: the code
enters the missing-field branch (event_validator.py:459-476), emitting the
not-present verdict exactly when it was not already reported and the rule is
not required. -/
theorem rule_gen_null_value (inner : List (String × Json))
    (norm : List (Option String × Json)) (en : String) (acc : List Verdict) (r : Rule)
    (hfn : r.field_name ≠ "") (hdt : r.data_type ≠ "")
    (harr : get_array_field_name r.field_name = (none, none))
    (hval0 : py_get_opt norm (normalize_key r.field_name) = Json.null)
    (hpath : get_value_by_path inner r.field_name = Json.null) :
    rule_gen inner norm en acc r =
      if (!(acc.any (fun w => w.key == r.field_name
            && w.validationStatus == "Payload not present in the log"))
          && !r.is_required) = true
      then [Verdict.mk en r.field_name Json.null r.data_type "not present"
        "Payload not present in the log" "Field is missing in the payload"]
      else [] := by
  unfold rule_gen
  rw [if_neg (by simp [hfn, hdt])]
  rw [harr]
  dsimp only
  rw [hval0, hpath]
  rfl

/-- In an accumulating fold, if processing some list member always either
finds a satisfying element already accumulated or generates one, a
satisfying element is in the fold's output. -/
theorem mem_foldl_append_exists {α β : Type} (g : List α → β → List α)
    (pred : α → Prop) (x : β) :
    ∀ (l : List β) (base : List α), x ∈ l →
      (∀ acc, (∃ v ∈ acc, pred v) ∨ ∃ v ∈ g acc x, pred v) →
      ∃ v ∈ l.foldl (fun a y => a ++ g a y) base, pred v := by
  intro l
  induction l with
  | nil => intro base hx _; cases hx
  | cons r rest ih =>
    intro base hx hstep
    rcases List.mem_cons.mp hx with h | h
    · subst h
      rcases hstep base with ⟨v, hv, hp⟩ | ⟨v, hv, hp⟩
      · exact ⟨v, mem_foldl_append_init g v rest _ (List.mem_append_left _ hv), hp⟩
      · exact ⟨v, mem_foldl_append_init g v rest _ (List.mem_append_right _ hv), hp⟩
    · exact ih _ h hstep

/-- C5 (amended): for a well-formed non-array FieldRule on a completed
validate_event run, a field value that is exactly the empty string yields a
"Payload value is Empty" verdict. A null value never does: the
`normalized_payload.get` lookup reads it back as missing, so every verdict
the per-field pass can emit for the rule has status "Payload not present in
the log"; it is actually emitted into the results when the rule is not
required, while for a required rule the per-field pass is suppressed by the
`is_required` guard (event_validator.py:466) and emits nothing — so, the
required pass not firing either (the key is present), a required-but-null
field can leave the event overall "valid", as the counterexample shows
concretely. A whitespace-only string fails type checking instead. -/
theorem empty_string_value_yields_empty_verdict
    (en : String) (p : Json) (rules : List Rule) (rule : Rule)
    (st : String) (res : List Verdict)
    (hmem : rule ∈ rules)
    (hfn : strip_payload_pfx rule.field_name ≠ "")
    (hdt : rule.data_type ≠ "")
    (harr : get_array_field_name (strip_payload_pfx rule.field_name) = (none, none))
    (h : validate_event en p rules = .ok (st, res)) :
    (py_get_opt
        (dict_comp ((inner_payload_of p).map (fun kv => (normalize_key kv.1, kv.2))))
        (normalize_key (strip_payload_pfx rule.field_name)) = Json.str "" →
      ∃ r ∈ res, r.key = strip_payload_pfx rule.field_name ∧
        r.validationStatus = "Payload value is Empty") ∧
    (py_get_opt
        (dict_comp ((inner_payload_of p).map (fun kv => (normalize_key kv.1, kv.2))))
        (normalize_key (strip_payload_pfx rule.field_name)) = Json.null →
     get_value_by_path (inner_payload_of p) (strip_payload_pfx rule.field_name) = Json.null →
      (∀ (acc : List Verdict),
        ∀ v ∈ rule_gen (inner_payload_of p)
          (dict_comp ((inner_payload_of p).map (fun kv => (normalize_key kv.1, kv.2)))) en acc
          ({ rule with field_name := strip_payload_pfx rule.field_name }),
          v.validationStatus = "Payload not present in the log") ∧
      (rule.is_required = true →
        ∀ (acc : List Verdict),
          rule_gen (inner_payload_of p)
            (dict_comp ((inner_payload_of p).map (fun kv => (normalize_key kv.1, kv.2)))) en acc
            ({ rule with field_name := strip_payload_pfx rule.field_name }) = []) ∧
      (rule.is_required = false →
        ∃ r ∈ res, r.key = strip_payload_pfx rule.field_name ∧
          r.validationStatus = "Payload not present in the log")) := by
  obtain ⟨cr, hc, hres, hst⟩ := validate_event_ok_destruct en p rules st res h
  have hproc : ({ rule with field_name := strip_payload_pfx rule.field_name } : Rule)
      ∈ processed_rules rules :=
    List.mem_map.mpr ⟨rule, hmem, rfl⟩
  constructor
  · intro hval
    refine ⟨Verdict.mk en (strip_payload_pfx rule.field_name)
      (get_formatted_value (Json.str "") rule.data_type)
      rule.data_type (get_value_type (Json.str ""))
      "Payload value is Empty" "Field value is empty or null", ?_, rfl, rfl⟩
    rw [hres]
    refine mem_foldl_append_gen _ _
      ({ rule with field_name := strip_payload_pfx rule.field_name } : Rule) _ _ hproc ?_
    intro acc
    rw [rule_gen_empty_string _ _ _ _
      ({ rule with field_name := strip_payload_pfx rule.field_name } : Rule) hfn hdt harr hval]
    exact List.mem_singleton.mpr rfl
  · intro hval0 hpath
    have hlem : ∀ acc, rule_gen (inner_payload_of p)
        (dict_comp ((inner_payload_of p).map (fun kv => (normalize_key kv.1, kv.2)))) en acc
        ({ rule with field_name := strip_payload_pfx rule.field_name }) =
        if (!(acc.any (fun w => w.key == strip_payload_pfx rule.field_name
              && w.validationStatus == "Payload not present in the log"))
            && !rule.is_required) = true
        then [Verdict.mk en (strip_payload_pfx rule.field_name) Json.null rule.data_type
          "not present" "Payload not present in the log" "Field is missing in the payload"]
        else [] :=
      fun acc => rule_gen_null_value _ _ _ acc
        ({ rule with field_name := strip_payload_pfx rule.field_name } : Rule)
        hfn hdt harr hval0 hpath
    refine ⟨?_, ?_, ?_⟩
    · intro acc v hv
      rw [hlem acc] at hv
      split at hv
      · rw [List.mem_singleton.mp hv]
      · cases hv
    · intro hreq acc
      rw [hlem acc]
      rw [if_neg (by simp [hreq])]
    · intro hreq
      rw [hres]
      refine mem_foldl_append_exists _ _
        ({ rule with field_name := strip_payload_pfx rule.field_name } : Rule) _ _ hproc ?_
      intro acc
      by_cases hrep : (acc.any (fun w => w.key == strip_payload_pfx rule.field_name
          && w.validationStatus == "Payload not present in the log")) = true
      · left
        obtain ⟨v, hvm, hvp⟩ := List.any_eq_true.mp hrep
        simp only [Bool.and_eq_true, beq_iff_eq] at hvp
        exact ⟨v, hvm, hvp.1, hvp.2⟩
      · right
        rw [hlem acc, if_pos (by simp [hrep, hreq])]
        exact ⟨Verdict.mk en (strip_payload_pfx rule.field_name) Json.null rule.data_type
          "not present" "Payload not present in the log" "Field is missing in the payload",
          List.mem_singleton.mpr rfl, rfl, rfl⟩

/-- Witness for C5 (amended), at the empty-string case: a float rule whose
field holds the empty string. -/
theorem empty_string_value_yields_empty_verdict_witness :
    ∃ r ∈ [Verdict.mk "ev5" "amount" (Json.str "") "float" "text"
        "Payload value is Empty" "Field value is empty or null"],
      r.key = strip_payload_pfx "amount" ∧
        r.validationStatus = "Payload value is Empty" :=
  (empty_string_value_yields_empty_verdict "ev5"
    (Json.obj [("payload", Json.obj [("amount", Json.str "")])])
    [Rule.mk "amount" "float" false Json.null]
    (Rule.mk "amount" "float" false Json.null) "invalid"
    [Verdict.mk "ev5" "amount" (Json.str "") "float" "text"
      "Payload value is Empty" "Field value is empty or null"]
    (List.mem_singleton.mpr rfl) (by decide) (by decide) (by rfl) (by rfl)).1 (by rfl)

/-- Every fallback verdict carries expected type "EXTRA" and the key of its
payload item, whatever the `first` flag. -/
theorem unknown_loop_map_key_etype (en : String) :
    ∀ (l : List (String × Json)) (first : Bool),
      (unknown_event_loop en first l).map (fun v => v.key) = l.map (fun kv => kv.1) ∧
      (unknown_event_loop en first l).map (fun v => v.expectedType) =
        l.map (fun _ => "EXTRA") := by
  intro l
  induction l with
  | nil => intro first; exact ⟨rfl, rfl⟩
  | cons kv rest ih =>
    intro first
    obtain ⟨k, v⟩ := kv
    obtain ⟨ih1, ih2⟩ := ih false
    constructor
    · show (unknown_event_verdict en first k v).key :: _ = k :: _
      rw [ih1]
      unfold unknown_event_verdict
      split
      · rfl
      · split <;> rfl
    · show (unknown_event_verdict en first k v).expectedType :: _ = "EXTRA" :: _
      rw [ih2]
      unfold unknown_event_verdict
      split
      · rfl
      · split <;> rfl

/-- The fallback statuses, indexed: empty values are flagged, position zero
gets the "Extra event" tag, later positions the "Payload from extra event"
tag. The loop's `first` flag is true exactly at index zero. -/
theorem unknown_loop_map_status (en : String) :
    ∀ (l : List (String × Json)) (n : Nat),
      (unknown_event_loop en (n == 0) l).map (fun v => v.validationStatus) =
        (l.enumFrom n).map (fun q =>
          if is_empty_val q.2.2 = true then "Payload value is Empty"
          else if q.1 = 0 then "Extra event (not in sheet)"
          else "Payload from extra event") := by
  intro l
  induction l with
  | nil => intro n; rfl
  | cons kv rest ih =>
    intro n
    obtain ⟨k, v⟩ := kv
    have htail : unknown_event_loop en false rest = unknown_event_loop en ((n + 1) == 0) rest :=
      rfl
    show (unknown_event_verdict en (n == 0) k v).validationStatus :: _ = _
    rw [List.enumFrom_cons, List.map_cons, htail, ih (n + 1)]
    unfold unknown_event_verdict
    by_cases he : is_empty_val v = true
    · rw [if_pos he, if_pos he]
    · rw [if_neg he, if_neg he]
      by_cases hn : n = 0
      · subst hn
        rfl
      · rw [if_neg (by simpa using hn), if_neg hn]

/-- The fallback's invalid test agrees with "some payload value is empty". -/
theorem unknown_loop_any_empty (en : String) :
    ∀ (l : List (String × Json)) (first : Bool),
      (unknown_event_loop en first l).any
          (fun r => r.validationStatus == "Payload value is Empty") =
        l.any (fun kv => is_empty_val kv.2) := by
  intro l
  induction l with
  | nil => intro first; rfl
  | cons kv rest ih =>
    intro first
    obtain ⟨k, v⟩ := kv
    show (((unknown_event_verdict en first k v).validationStatus
        == "Payload value is Empty")
      || (unknown_event_loop en false rest).any
          (fun r => r.validationStatus == "Payload value is Empty")) = _
    rw [ih false]
    unfold unknown_event_verdict
    by_cases he : is_empty_val v = true
    · rw [if_pos he, List.any_cons, he]
      rfl
    · have he2 : is_empty_val v = false := by simpa using he
      rw [if_neg he, List.any_cons, he2]
      cases first <;> rfl

/-- C8: the fallback validator emits one verdict per inner-payload key, each
with expected type "EXTRA" and keyed by the payload key; the verdict at
position i carries status "Payload value is Empty" when its value is
null/empty, "Extra event (not in sheet)" when i = 0, and "Payload from extra
event" otherwise; the overall status is "invalid" exactly when some field
value is null or empty (event_validator.py:514-559). -/
theorem unknown_event_fallback_verdicts (en : String) (p : Json) :
    (validate_unknown_event en p).2.map (fun v => v.key) =
      (inner_payload_of p).map (fun kv => kv.1) ∧
    (validate_unknown_event en p).2.map (fun v => v.expectedType) =
      (inner_payload_of p).map (fun _ => "EXTRA") ∧
    (validate_unknown_event en p).2.map (fun v => v.validationStatus) =
      (inner_payload_of p).enum.map (fun q =>
        if is_empty_val q.2.2 = true then "Payload value is Empty"
        else if q.1 = 0 then "Extra event (not in sheet)"
        else "Payload from extra event") ∧
    ((validate_unknown_event en p).1 = "invalid" ↔
      ∃ kv ∈ inner_payload_of p, is_empty_val kv.2 = true) := by
  obtain ⟨hk, he⟩ := unknown_loop_map_key_etype en (inner_payload_of p) true
  refine ⟨hk, he, ?_, ?_⟩
  · exact unknown_loop_map_status en (inner_payload_of p) 0
  · show (if (unknown_event_loop en true (inner_payload_of p)).any
        (fun r => r.validationStatus == "Payload value is Empty") = true
      then "invalid" else "valid") = "invalid" ↔ _
    rw [unknown_loop_any_empty en (inner_payload_of p) true]
    by_cases hb : (inner_payload_of p).any (fun kv => is_empty_val kv.2) = true
    · rw [if_pos hb]
      simp only [List.any_eq_true] at hb
      exact ⟨fun _ => hb, fun _ => rfl⟩
    · rw [if_neg hb]
      constructor
      · intro hv; exact absurd hv (by decide)
      · intro hex
        exact absurd (List.any_eq_true.mpr hex) hb

/-- The envelope guard of validate_event (event_validator.py:268): is there a
top-level `payload` key holding a dict? -/
def has_dict_payload (payload : Json) : Bool :=
  match payload with
  | .obj m =>
    (match dict_find m "payload" with
     | some (.obj _) => true
     | _ => false)
  | _ => false

/-- Statement device for the amended C10: a condition value that cannot make
`validate_conditional_fields` raise on an empty payload — it is falsy, or a
dict whose `if_field` entry is hashable. -/
def cond_safe (c : Json) : Bool :=
  !truthy c ||
    (match c with
     | .obj ckvs => !unhashable (py_get ckvs "if_field")
     | _ => false)

/-- An envelope without a dict-valued `payload` key validates against the
empty inner payload. -/
theorem inner_payload_nil_of_no_dict (p : Json) (h : has_dict_payload p = false) :
    inner_payload_of p = [] := by
  cases p with
  | obj m =>
    unfold has_dict_payload at h
    unfold inner_payload_of
    dsimp only at h ⊢
    cases hf : dict_find m "payload" with
    | none => rfl
    | some j =>
      cases j
      case obj kvs => rw [hf] at h; exact absurd h (by simp)
      all_goals rfl
  | null => rfl
  | bool b => rfl
  | int n => rfl
  | float r => rfl
  | str s => rfl
  | arr xs => rfl

/-- Membership in an empty dict is false for every candidate key. -/
theorem str_key_mem_nil (k : Json) : str_key_mem [] k = false := by
  cases k <;> rfl

/-- On the empty payload, a safe condition always passes without raising:
the guard is falsy, or the trigger membership test fails. -/
theorem validate_conditional_fields_nil_safe (r : Rule)
    (hsafe : cond_safe r.condition = true) :
    validate_conditional_fields [] r = .ok (true, "") := by
  unfold validate_conditional_fields
  by_cases ht : truthy r.condition = true
  · rw [if_neg (by simp [ht])]
    unfold cond_safe at hsafe
    rw [ht] at hsafe
    simp only [Bool.not_true, Bool.false_or] at hsafe
    cases hcond : r.condition with
    | obj ckvs =>
      rw [hcond] at hsafe
      have hh : unhashable (py_get ckvs "if_field") = false := by simpa using hsafe
      dsimp only
      rw [if_neg (by simp [hh]), if_neg (by simp [str_key_mem_nil])]
    | null => rw [hcond] at hsafe; simp at hsafe
    | bool b => rw [hcond] at hsafe; simp at hsafe
    | int n => rw [hcond] at hsafe; simp at hsafe
    | float fr => rw [hcond] at hsafe; simp at hsafe
    | str s => rw [hcond] at hsafe; simp at hsafe
    | arr xs => rw [hcond] at hsafe; simp at hsafe
  · have ht2 : truthy r.condition = false := by simpa using ht
    rw [if_pos (by simp [ht2])]

/-- On the empty payload, the whole conditional pass of a safe rule list
succeeds with no verdicts. -/
theorem cond_pass_nil_ok (en : String) :
    ∀ (rules : List Rule), (∀ r ∈ rules, cond_safe r.condition = true) →
      cond_pass [] en rules = .ok [] := by
  intro rules
  induction rules with
  | nil => intro _; rfl
  | cons r rest ih =>
    intro hsafe
    have hv := validate_conditional_fields_nil_safe r (hsafe r (List.mem_cons_self r rest))
    have hrest := ih (fun x hx => hsafe x (List.mem_cons_of_mem r hx))
    unfold cond_pass
    rw [hv, hrest]

/-- Every verdict of the required-field pass has the missing-payload status. -/
theorem required_verdict_status (payload : List (String × Json)) (rules : List Rule)
    (en : String) :
    ∀ v ∈ validate_required_fields payload rules en,
      v.validationStatus = "Payload not present in the log" := by
  intro v hv
  unfold validate_required_fields at hv
  obtain ⟨r, _, hr⟩ := List.mem_filterMap.mp hv
  by_cases hc : (r.is_required && !(payload.any (fun kv =>
      normalize_key kv.1 == normalize_key r.field_name))) = true
  · rw [if_pos hc] at hr
    cases hr
    rfl
  · rw [if_neg hc] at hr
    cases hr

/-- Distinctness of verdict statuses used in the extra-key arguments. -/
theorem ne_invalid_csv_extra : ("Invalid CSV row" : String) ≠ "Extra key present in the log" := by
  decide

/-- The missing-payload status is not the extra-key status. -/
theorem ne_missing_extra :
    ("Payload not present in the log" : String) ≠ "Extra key present in the log" := by
  decide

/-- The empty-value status is not the extra-key status. -/
theorem ne_empty_extra :
    ("Payload value is Empty" : String) ≠ "Extra key present in the log" := by
  decide

/-- The wrong-type status is not the extra-key status. -/
theorem ne_wrongtype_extra :
    ("Invalid/Wrong datatype/value" : String) ≠ "Extra key present in the log" := by
  decide

/-- The pass status is not the extra-key status. -/
theorem ne_valid_extra : ("Valid" : String) ≠ "Extra key present in the log" := by
  decide

/-- The status chosen by the shared status/comment selector is never the
extra-key status. -/
theorem status_comment_of_ne_extra (vr : VRes) (t : String) (val : Json) :
    (status_comment_of vr t val).1 ≠ "Extra key present in the log" := by
  unfold status_comment_of
  split
  · exact ne_empty_extra
  · split
    · exact ne_valid_extra
    · exact ne_wrongtype_extra

/-- No array-element verdict carries the extra-key status. -/
theorem array_elem_ne_extra (en rak sf et : String) :
    ∀ (xs : List Json) (n : Nat) (v : Verdict),
      v ∈ array_elem_verdicts en rak sf et n xs →
      v.validationStatus ≠ "Extra key present in the log" := by
  intro xs
  induction xs with
  | nil => intro n v hv; cases hv
  | cons elem rest ih =>
    intro n v hv
    rcases List.mem_cons.mp hv with h | h
    · subst h
      cases elem with
      | obj em =>
        dsimp only
        cases find_key_case_insensitive em sf with
        | none => exact ne_missing_extra
        | some rsk => exact status_comment_of_ne_extra _ _ _
      | null => exact ne_wrongtype_extra
      | bool b => exact ne_wrongtype_extra
      | int n2 => exact ne_wrongtype_extra
      | float fr => exact ne_wrongtype_extra
      | str s => exact ne_wrongtype_extra
      | arr ys => exact ne_wrongtype_extra
    · exact ih (n + 1) v h

/-- No verdict of the per-rule loop carries the extra-key status: every
branch of event_validator.py:339-503 writes one of "Invalid CSV row",
"Payload not present in the log", "Payload value is Empty", "Valid", or
"Invalid/Wrong datatype/value". -/
theorem rule_gen_ne_extra (inner : List (String × Json))
    (norm : List (Option String × Json)) (en : String) (acc : List Verdict) (r : Rule) :
    ∀ v ∈ rule_gen inner norm en acc r,
      v.validationStatus ≠ "Extra key present in the log" := by
  intro v hv
  unfold rule_gen at hv
  split at hv
  · rw [List.mem_singleton.mp hv]
    exact ne_invalid_csv_extra
  · split at hv
    · rename_i arr_name sub_field heq
      cases hk : find_key_case_insensitive inner arr_name with
      | none =>
        rw [hk] at hv
        rw [List.mem_singleton.mp hv]
        exact ne_missing_extra
      | some rak =>
        rw [hk] at hv
        dsimp only at hv
        cases harr : py_get inner rak with
        | arr xs =>
          rw [harr] at hv
          dsimp only at hv
          by_cases hempty : xs.isEmpty = true
          · rw [if_pos hempty] at hv
            rw [List.mem_singleton.mp hv]
            exact ne_empty_extra
          · rw [if_neg hempty] at hv
            exact array_elem_ne_extra en rak sub_field r.data_type xs 0 v hv
        | null => rw [harr] at hv; rw [List.mem_singleton.mp hv]; exact ne_wrongtype_extra
        | bool b => rw [harr] at hv; rw [List.mem_singleton.mp hv]; exact ne_wrongtype_extra
        | int n => rw [harr] at hv; rw [List.mem_singleton.mp hv]; exact ne_wrongtype_extra
        | float fr => rw [harr] at hv; rw [List.mem_singleton.mp hv]; exact ne_wrongtype_extra
        | str s => rw [harr] at hv; rw [List.mem_singleton.mp hv]; exact ne_wrongtype_extra
        | obj m => rw [harr] at hv; rw [List.mem_singleton.mp hv]; exact ne_wrongtype_extra
    · dsimp only at hv
      repeat' split at hv
      all_goals
        first
          | exact absurd hv (List.not_mem_nil _)
          | (obtain rfl := List.mem_singleton.mp hv
             first
               | exact ne_missing_extra
               | exact status_comment_of_ne_extra _ _ _)

/-- C10 (amended): for an envelope without a dict-valued `payload` key,
validate_event validates against the empty inner payload and — provided every
rule's condition value is safe (falsy, or a dict with a hashable `if_field`)
— returns normally: every required rule yields a "Payload not present in the
log" verdict and no extra-key verdict is produced. (As stated the claim is
false: a truthy non-dict condition value makes validate_conditional_fields
raise regardless of the payload, see the counterexample.) -/
theorem missing_inner_payload_validates_empty
    (en : String) (p : Json) (rules : List Rule)
    (hp : has_dict_payload p = false)
    (hsafe : ∀ r ∈ rules, cond_safe r.condition = true) :
    ∃ st res, validate_event en p rules = .ok (st, res) ∧
      (∀ r ∈ rules, r.is_required = true →
        ∃ v ∈ res, v.key = strip_payload_pfx r.field_name ∧
          v.validationStatus = "Payload not present in the log") ∧
      (∀ v ∈ res, v.validationStatus ≠ "Extra key present in the log") := by
  have hinner := inner_payload_nil_of_no_dict p hp
  have hsafe2 : ∀ r ∈ processed_rules rules, cond_safe r.condition = true := by
    intro r hr
    obtain ⟨r0, hr0, rfl⟩ := List.mem_map.mp hr
    exact hsafe r0 hr0
  have hcond : cond_pass (inner_payload_of p) en (processed_rules rules) = .ok [] := by
    rw [hinner]
    exact cond_pass_nil_ok en _ hsafe2
  cases hve : validate_event en p rules with
  | error e =>
    exfalso
    unfold validate_event at hve
    dsimp only at hve
    rw [hcond] at hve
    exact absurd hve (by simp)
  | ok pr =>
    obtain ⟨st, res⟩ := pr
    obtain ⟨cr, hc, hres, hst⟩ := validate_event_ok_destruct en p rules st res hve
    have hcr : cr = [] := Except.ok.inj (hc.symm.trans hcond)
    subst hcr
    refine ⟨st, res, rfl, ?_, ?_⟩
    · intro r hr hreq
      refine ⟨Verdict.mk en (strip_payload_pfx r.field_name) Json.null r.data_type
        "not present" "Payload not present in the log"
        "Required field is missing in the payload", ?_, rfl, rfl⟩
      rw [hres]
      apply mem_foldl_append_init
      apply List.mem_append_left
      apply List.mem_append_left
      unfold validate_required_fields
      refine List.mem_filterMap.mpr
        ⟨{ r with field_name := strip_payload_pfx r.field_name },
         List.mem_map.mpr ⟨r, hr, rfl⟩, ?_⟩
      rw [hinner]
      simp [hreq, Verdict.mk.injEq]
    · intro v hv
      rw [hres] at hv
      rcases mem_foldl_append_cases _ v _ _ hv with hbase | ⟨acc, x, hx, hg⟩
      · rcases List.mem_append.mp hbase with h1 | h2
        · rcases List.mem_append.mp h1 with h3 | h4
          · rw [required_verdict_status _ _ _ v h3]
            exact ne_missing_extra
          · exact absurd h4 (List.not_mem_nil v)
        · rw [hinner] at h2
          exact absurd h2 (List.not_mem_nil v)
      · exact rule_gen_ne_extra _ _ _ _ _ v hg

/-- Counterexample to C10 as stated: with an envelope that has no dict
`payload` (so the claim's hypothesis holds), a rule whose stored condition is
the truthy non-dict JSON value `"x"` makes validate_event raise at
`condition.get` (event_validator.py:198) instead of returning normally. -/
theorem missing_inner_payload_raises_counterexample :
    has_dict_payload (Json.obj []) = false ∧
    validate_event "e" (Json.obj []) [Rule.mk "f" "text" true (Json.str "x")] =
      .error "AttributeError: condition value has no attribute get" :=
  ⟨rfl, by rfl⟩

/-- Witness for C10 (amended): a null-payload envelope and a required rule
with no condition. -/
theorem missing_inner_payload_validates_empty_witness :
    ∃ st res, validate_event "login" (Json.obj [("payload", Json.null)])
        [Rule.mk "user_id" "integer" true Json.null] = .ok (st, res) ∧
      (∀ r ∈ [Rule.mk "user_id" "integer" true Json.null], r.is_required = true →
        ∃ v ∈ res, v.key = strip_payload_pfx r.field_name ∧
          v.validationStatus = "Payload not present in the log") ∧
      (∀ v ∈ res, v.validationStatus ≠ "Extra key present in the log") :=
  missing_inner_payload_validates_empty "login" (Json.obj [("payload", Json.null)])
    [Rule.mk "user_id" "integer" true Json.null] (by rfl)
    (by intro r hr; rw [List.mem_singleton.mp hr]; rfl)

